import Mathlib

/- Verification development for the ACM PCA certificate-authority resource of the
terraform-provider-aws repository: a shallow embedding of
aws/resource_aws_acmpca_certificate_authority.go and
aws/resource_aws_acmpca_certificate_authority_certificate_attachment.go,
together with theorems settling the specification claims about them. -/

set_option maxHeartbeats 1000000

/-- Model of an AWS SDK error value (awserr.Error): an error code and a
human-readable message. -/
structure AwsError where
  code : String
  message : String
deriving DecidableEq

/-- Result of one remote SDK call: the typed output on success, or an error. -/
inductive CallResult (α : Type) where
  | ok (a : α)
  | failure (e : AwsError)
deriving DecidableEq

/-- Go aws.StringValue: dereference a possibly-nil string pointer, nil giving "". -/
def stringValue : Option String → String
  | none => ""
  | some s => s

/-- Go aws.BoolValue: dereference a possibly-nil bool pointer, nil giving false. -/
def boolValue : Option Bool → Bool
  | none => false
  | some b => b

/-- Go aws.Int64Value: dereference a possibly-nil int64 pointer, nil giving 0. -/
def int64Value : Option Int → Int
  | none => 0
  | some n => n

/-- Decide whether sub occurs as a contiguous sublist of hay; character-level model
of Go strings.Contains. -/
def charsContain : List Char → List Char → Bool
  | [], sub => sub.isEmpty
  | h :: t, sub => sub.isPrefixOf (h :: t) || charsContain t sub

/-- Go strings.Contains on the underlying character lists. -/
def strContains (hay sub : String) : Bool := charsContain hay.data sub.data

/-- Repository helper isAWSErr (its defining file is not under src).
Modelled from the spec: the retryable-error detection "pattern-matches a
human-readable message" — the error code is compared for equality and the message
by substring containment (empty message pattern matching every message). -/
def isAWSErr (e : AwsError) (code message : String) : Bool :=
  e.code == code && strContains e.message message

/-- acmpca.ASN1Subject: thirteen optional distinguished-name components. Each Go
field is a *string, nil meaning unset; modelled as Option String. -/
structure ASN1Subject where
  commonName : Option String
  country : Option String
  distinguishedNameQualifier : Option String
  generationQualifier : Option String
  givenName : Option String
  initials : Option String
  locality : Option String
  organization : Option String
  organizationalUnit : Option String
  pseudonym : Option String
  state : Option String
  surname : Option String
  title : Option String
deriving DecidableEq

/-- One element of the flattened subject list: the configuration map for the
subject block. The schema (source lines 81-162) declares all thirteen keys, and
both the framework's Get and flattenAcmpcaASN1Subject materialise every key
(strings defaulting to ""), so the comma-ok map reads in expandAcmpcaASN1Subject
always succeed and only the emptiness test remains. -/
structure SubjectMap where
  common_name : String
  country : String
  distinguished_name_qualifier : String
  generation_qualifier : String
  given_name : String
  initials : String
  locality : String
  organization : String
  organizational_unit : String
  pseudonym : String
  state : String
  surname : String
  title : String
deriving DecidableEq

/-- expandAcmpcaASN1Subject (source lines 631-680): nil for an empty list;
otherwise each nonempty string of the first map becomes a set pointer field. -/
def expandAcmpcaASN1Subject : List SubjectMap → Option ASN1Subject
  | [] => none
  | m :: _ => some {
      commonName := if m.common_name = "" then none else some m.common_name,
      country := if m.country = "" then none else some m.country,
      distinguishedNameQualifier :=
        if m.distinguished_name_qualifier = "" then none
        else some m.distinguished_name_qualifier,
      generationQualifier :=
        if m.generation_qualifier = "" then none else some m.generation_qualifier,
      givenName := if m.given_name = "" then none else some m.given_name,
      initials := if m.initials = "" then none else some m.initials,
      locality := if m.locality = "" then none else some m.locality,
      organization := if m.organization = "" then none else some m.organization,
      organizationalUnit :=
        if m.organizational_unit = "" then none else some m.organizational_unit,
      pseudonym := if m.pseudonym = "" then none else some m.pseudonym,
      state := if m.state = "" then none else some m.state,
      surname := if m.surname = "" then none else some m.surname,
      title := if m.title = "" then none else some m.title }

/-- flattenAcmpcaASN1Subject (source lines 736-758): empty list for nil, else a
single map holding aws.StringValue of every field. -/
def flattenAcmpcaASN1Subject : Option ASN1Subject → List SubjectMap
  | none => []
  | some subject =>
    [{ common_name := stringValue subject.commonName,
       country := stringValue subject.country,
       distinguished_name_qualifier := stringValue subject.distinguishedNameQualifier,
       generation_qualifier := stringValue subject.generationQualifier,
       given_name := stringValue subject.givenName,
       initials := stringValue subject.initials,
       locality := stringValue subject.locality,
       organization := stringValue subject.organization,
       organizational_unit := stringValue subject.organizationalUnit,
       pseudonym := stringValue subject.pseudonym,
       state := stringValue subject.state,
       surname := stringValue subject.surname,
       title := stringValue subject.title }]

/-- acmpca.CertificateAuthorityConfiguration. -/
structure CertificateAuthorityConfiguration where
  keyAlgorithm : Option String
  signingAlgorithm : Option String
  subject : Option ASN1Subject
deriving DecidableEq

/-- Configuration map for the certificate_authority_configuration block. -/
structure CAConfigMap where
  key_algorithm : String
  signing_algorithm : String
  subject : List SubjectMap
deriving DecidableEq

/-- expandAcmpcaCertificateAuthorityConfiguration (source lines 682-696). -/
def expandAcmpcaCertificateAuthorityConfiguration :
    List CAConfigMap → Option CertificateAuthorityConfiguration
  | [] => none
  | m :: _ => some {
      keyAlgorithm := some m.key_algorithm,
      signingAlgorithm := some m.signing_algorithm,
      subject := expandAcmpcaASN1Subject m.subject }

/-- flattenAcmpcaCertificateAuthorityConfiguration (source lines 760-772). -/
def flattenAcmpcaCertificateAuthorityConfiguration :
    Option CertificateAuthorityConfiguration → List CAConfigMap
  | none => []
  | some config =>
    [{ key_algorithm := stringValue config.keyAlgorithm,
       signing_algorithm := stringValue config.signingAlgorithm,
       subject := flattenAcmpcaASN1Subject config.subject }]

/-- acmpca.CrlConfiguration. -/
structure CrlConfiguration where
  customCname : Option String
  enabled : Option Bool
  expirationInDays : Option Int
  s3BucketName : Option String
deriving DecidableEq

/-- Configuration map for the crl_configuration block. The enabled key is read in
expandAcmpcaCrlConfiguration by a direct type assertion (no comma-ok), and the
framework materialises every declared key, so it is modelled as always present. -/
structure CrlMap where
  custom_cname : String
  enabled : Bool
  expiration_in_days : Int
  s3_bucket_name : String
deriving DecidableEq

/-- expandAcmpcaCrlConfiguration (source lines 698-720): Enabled is always set;
custom_cname and s3_bucket_name only when nonempty; expiration_in_days only when
positive. -/
def expandAcmpcaCrlConfiguration : List CrlMap → Option CrlConfiguration
  | [] => none
  | m :: _ => some {
      customCname := if m.custom_cname = "" then none else some m.custom_cname,
      enabled := some m.enabled,
      expirationInDays :=
        if m.expiration_in_days > 0 then some m.expiration_in_days else none,
      s3BucketName := if m.s3_bucket_name = "" then none else some m.s3_bucket_name }

/-- flattenAcmpcaCrlConfiguration (source lines 774-787). -/
def flattenAcmpcaCrlConfiguration : Option CrlConfiguration → List CrlMap
  | none => []
  | some config =>
    [{ custom_cname := stringValue config.customCname,
       enabled := boolValue config.enabled,
       expiration_in_days := int64Value config.expirationInDays,
       s3_bucket_name := stringValue config.s3BucketName }]

/-- acmpca.RevocationConfiguration. -/
structure RevocationConfiguration where
  crlConfiguration : Option CrlConfiguration
deriving DecidableEq

/-- Configuration map for the revocation_configuration block. -/
structure RevocationMap where
  crl_configuration : List CrlMap
deriving DecidableEq

/-- expandAcmpcaRevocationConfiguration (source lines 722-734). -/
def expandAcmpcaRevocationConfiguration :
    List RevocationMap → Option RevocationConfiguration
  | [] => none
  | m :: _ => some { crlConfiguration := expandAcmpcaCrlConfiguration m.crl_configuration }

/-- flattenAcmpcaRevocationConfiguration (source lines 789-799). -/
def flattenAcmpcaRevocationConfiguration :
    Option RevocationConfiguration → List RevocationMap
  | none => []
  | some config =>
    [{ crl_configuration := flattenAcmpcaCrlConfiguration config.crlConfiguration }]

/-- A pointer string field survives flatten-then-expand exactly when it is unset
or set to a nonempty string (a set empty string flattens to "" and re-expands to
unset). -/
def canonStr : Option String → Bool
  | none => true
  | some s => s != ""

/-- A pointer int field survives flatten-then-expand exactly when it is unset or
set to a positive value. -/
def canonExp : Option Int → Bool
  | none => true
  | some k => decide (0 < k)

/-- Subjects whose set fields are all nonempty. -/
def ASN1Subject.Canonical (s : ASN1Subject) : Prop :=
  canonStr s.commonName = true ∧ canonStr s.country = true ∧
    canonStr s.distinguishedNameQualifier = true ∧
    canonStr s.generationQualifier = true ∧ canonStr s.givenName = true ∧
    canonStr s.initials = true ∧ canonStr s.locality = true ∧
    canonStr s.organization = true ∧ canonStr s.organizationalUnit = true ∧
    canonStr s.pseudonym = true ∧ canonStr s.state = true ∧
    canonStr s.surname = true ∧ canonStr s.title = true

instance (s : ASN1Subject) : Decidable s.Canonical := by
  unfold ASN1Subject.Canonical
  infer_instance

/-- Canonicity of an optional subject pointer. -/
def CanonicalSubjectOpt : Option ASN1Subject → Prop
  | none => True
  | some s => s.Canonical

instance : (s : Option ASN1Subject) → Decidable (CanonicalSubjectOpt s)
  | none => inferInstanceAs (Decidable True)
  | some s => inferInstanceAs (Decidable s.Canonical)

/-- Crypto configurations whose two algorithm pointers are set and whose subject
is canonical. -/
def CertificateAuthorityConfiguration.Canonical
    (c : CertificateAuthorityConfiguration) : Prop :=
  c.keyAlgorithm.isSome = true ∧ c.signingAlgorithm.isSome = true ∧
    CanonicalSubjectOpt c.subject

instance (c : CertificateAuthorityConfiguration) : Decidable c.Canonical := by
  unfold CertificateAuthorityConfiguration.Canonical
  infer_instance

/-- Canonicity of an optional crypto configuration. -/
def CanonicalConfigOpt : Option CertificateAuthorityConfiguration → Prop
  | none => True
  | some c => c.Canonical

instance : (c : Option CertificateAuthorityConfiguration) →
    Decidable (CanonicalConfigOpt c)
  | none => inferInstanceAs (Decidable True)
  | some c => inferInstanceAs (Decidable c.Canonical)

/-- CRL configurations whose enabled pointer is set, whose string pointers are
unset-or-nonempty and whose expiration pointer is unset-or-positive. -/
def CrlConfiguration.Canonical (c : CrlConfiguration) : Prop :=
  canonStr c.customCname = true ∧ c.enabled.isSome = true ∧
    canonExp c.expirationInDays = true ∧ canonStr c.s3BucketName = true

instance (c : CrlConfiguration) : Decidable c.Canonical := by
  unfold CrlConfiguration.Canonical
  infer_instance

/-- Canonicity of an optional CRL configuration. -/
def CanonicalCrlOpt : Option CrlConfiguration → Prop
  | none => True
  | some c => c.Canonical

instance : (c : Option CrlConfiguration) → Decidable (CanonicalCrlOpt c)
  | none => inferInstanceAs (Decidable True)
  | some c => inferInstanceAs (Decidable c.Canonical)

/-- Revocation configurations whose CRL block is canonical. -/
def RevocationConfiguration.Canonical (r : RevocationConfiguration) : Prop :=
  CanonicalCrlOpt r.crlConfiguration

instance (r : RevocationConfiguration) : Decidable r.Canonical := by
  unfold RevocationConfiguration.Canonical
  infer_instance

/-- Canonicity of an optional revocation configuration. -/
def CanonicalRevOpt : Option RevocationConfiguration → Prop
  | none => True
  | some r => r.Canonical

instance : (r : Option RevocationConfiguration) → Decidable (CanonicalRevOpt r)
  | none => inferInstanceAs (Decidable True)
  | some r => inferInstanceAs (Decidable r.Canonical)

theorem canonStr_roundtrip {f : Option String} (h : canonStr f = true) :
    (if stringValue f = "" then none else some (stringValue f)) = f := by
  cases f with
  | none => simp [stringValue]
  | some s =>
    simp only [canonStr, bne_iff_ne, ne_eq] at h
    simp [stringValue, h]

theorem canonExp_roundtrip {f : Option Int} (h : canonExp f = true) :
    (if int64Value f > 0 then some (int64Value f) else none) = f := by
  cases f with
  | none => simp [int64Value]
  | some k =>
    simp only [canonExp, decide_eq_true_eq] at h
    simp [int64Value, h]

theorem isSome_string_roundtrip {f : Option String} (h : f.isSome = true) :
    some (stringValue f) = f := by
  cases f with
  | none => simp at h
  | some s => rfl

theorem isSome_bool_roundtrip {f : Option Bool} (h : f.isSome = true) :
    some (boolValue f) = f := by
  cases f with
  | none => simp at h
  | some b => rfl

theorem expand_flatten_subject {s : Option ASN1Subject}
    (h : CanonicalSubjectOpt s) :
    expandAcmpcaASN1Subject (flattenAcmpcaASN1Subject s) = s := by
  cases s with
  | none => rfl
  | some subj =>
    obtain ⟨f1, f2, f3, f4, f5, f6, f7, f8, f9, f10, f11, f12, f13⟩ := subj
    obtain ⟨h1, h2, h3, h4, h5, h6, h7, h8, h9, h10, h11, h12, h13⟩ := h
    simp only [flattenAcmpcaASN1Subject, expandAcmpcaASN1Subject,
      Option.some.injEq, ASN1Subject.mk.injEq]
    exact ⟨canonStr_roundtrip h1, canonStr_roundtrip h2, canonStr_roundtrip h3,
      canonStr_roundtrip h4, canonStr_roundtrip h5, canonStr_roundtrip h6,
      canonStr_roundtrip h7, canonStr_roundtrip h8, canonStr_roundtrip h9,
      canonStr_roundtrip h10, canonStr_roundtrip h11, canonStr_roundtrip h12,
      canonStr_roundtrip h13⟩

theorem expand_flatten_config {c : Option CertificateAuthorityConfiguration}
    (h : CanonicalConfigOpt c) :
    expandAcmpcaCertificateAuthorityConfiguration
      (flattenAcmpcaCertificateAuthorityConfiguration c) = c := by
  cases c with
  | none => rfl
  | some config =>
    obtain ⟨hk, hs, hsub⟩ := h
    obtain ⟨key, signing, subject⟩ := config
    simp only [flattenAcmpcaCertificateAuthorityConfiguration,
      expandAcmpcaCertificateAuthorityConfiguration, Option.some.injEq,
      CertificateAuthorityConfiguration.mk.injEq]
    exact ⟨isSome_string_roundtrip hk, isSome_string_roundtrip hs,
      expand_flatten_subject hsub⟩

theorem expand_flatten_crl {c : Option CrlConfiguration}
    (h : CanonicalCrlOpt c) :
    expandAcmpcaCrlConfiguration (flattenAcmpcaCrlConfiguration c) = c := by
  cases c with
  | none => rfl
  | some config =>
    obtain ⟨hc, he, hx, hs⟩ := h
    obtain ⟨cname, en, exp, bucket⟩ := config
    simp only [flattenAcmpcaCrlConfiguration, expandAcmpcaCrlConfiguration,
      Option.some.injEq, CrlConfiguration.mk.injEq]
    exact ⟨canonStr_roundtrip hc, isSome_bool_roundtrip he,
      canonExp_roundtrip hx, canonStr_roundtrip hs⟩

theorem expand_flatten_revocation {r : Option RevocationConfiguration}
    (h : CanonicalRevOpt r) :
    expandAcmpcaRevocationConfiguration
      (flattenAcmpcaRevocationConfiguration r) = r := by
  cases r with
  | none => rfl
  | some config =>
    obtain ⟨crl⟩ := config
    simp only [flattenAcmpcaRevocationConfiguration,
      expandAcmpcaRevocationConfiguration, Option.some.injEq,
      RevocationConfiguration.mk.injEq]
    exact expand_flatten_crl h

/-- Subject holding a set-but-empty common name: the input on which the
expand-flatten round trip loses the present-but-empty pointer. -/
def nonCanonicalSubject : ASN1Subject :=
  { commonName := some "", country := none, distinguishedNameQualifier := none,
    generationQualifier := none, givenName := none, initials := none,
    locality := none, organization := none, organizationalUnit := none,
    pseudonym := none, state := none, surname := none, title := none }

/-- Claim C3 counterexample: the round trip expand(flatten(x)) = x fails at the
concrete subject record whose common-name pointer is set to the empty string —
flattening writes "" into the map and expansion reads "" back as unset. -/
theorem acmpca_subject_roundtrip_fails :
    expandAcmpcaASN1Subject (flattenAcmpcaASN1Subject (some nonCanonicalSubject))
      ≠ some nonCanonicalSubject := by decide

/-- Claim C3 (amended): for every canonical subject, crypto-config and
revocation-config record — optional string fields unset or nonempty, the CRL
enabled pointer set, the CRL expiration unset or positive, the two algorithm
pointers set — expand(flatten(x)) = x, and the absent-vs-present distinction is
preserved: a nil revocation configuration flattens to the empty list and
re-expands to nil, and a present one re-expands to a present one. -/
theorem acmpca_transcoder_roundtrip (s : Option ASN1Subject)
    (c : Option CertificateAuthorityConfiguration)
    (r : Option RevocationConfiguration)
    (hs : CanonicalSubjectOpt s) (hc : CanonicalConfigOpt c)
    (hr : CanonicalRevOpt r) :
    expandAcmpcaASN1Subject (flattenAcmpcaASN1Subject s) = s ∧
    expandAcmpcaCertificateAuthorityConfiguration
      (flattenAcmpcaCertificateAuthorityConfiguration c) = c ∧
    expandAcmpcaRevocationConfiguration
      (flattenAcmpcaRevocationConfiguration r) = r ∧
    flattenAcmpcaRevocationConfiguration none = [] ∧
    (∀ rc : RevocationConfiguration,
      (expandAcmpcaRevocationConfiguration
        (flattenAcmpcaRevocationConfiguration (some rc))).isSome = true) :=
  ⟨expand_flatten_subject hs, expand_flatten_config hc,
   expand_flatten_revocation hr, rfl, fun _ => rfl⟩

/-- Canonical sample subject used by round-trip witnesses. -/
def sampleSubject : ASN1Subject :=
  { commonName := some "example.com", country := none,
    distinguishedNameQualifier := none, generationQualifier := none,
    givenName := none, initials := none, locality := none,
    organization := some "Example Org", organizationalUnit := none,
    pseudonym := none, state := none, surname := none, title := none }

/-- Canonical sample crypto configuration used by round-trip witnesses. -/
def sampleConfig : CertificateAuthorityConfiguration :=
  { keyAlgorithm := some "RSA_4096", signingAlgorithm := some "SHA512WITHRSA",
    subject := some sampleSubject }

/-- Canonical sample CRL configuration used by round-trip witnesses. -/
def sampleCrl : CrlConfiguration :=
  { customCname := none, enabled := some true, expirationInDays := some 7,
    s3BucketName := some "crl-bucket" }

/-- Canonical sample revocation configuration used by round-trip witnesses. -/
def sampleRevocation : RevocationConfiguration :=
  { crlConfiguration := some sampleCrl }

/-- Claim C3 witness: the amended round-trip theorem applied at concrete
canonical records. -/
theorem acmpca_transcoder_roundtrip_witness :
    CanonicalSubjectOpt (some sampleSubject) ∧
    CanonicalConfigOpt (some sampleConfig) ∧
    CanonicalRevOpt (some sampleRevocation) ∧
    (expandAcmpcaASN1Subject (flattenAcmpcaASN1Subject (some sampleSubject)) =
        some sampleSubject ∧
      expandAcmpcaCertificateAuthorityConfiguration
        (flattenAcmpcaCertificateAuthorityConfiguration (some sampleConfig)) =
        some sampleConfig ∧
      expandAcmpcaRevocationConfiguration
        (flattenAcmpcaRevocationConfiguration (some sampleRevocation)) =
        some sampleRevocation ∧
      flattenAcmpcaRevocationConfiguration none = [] ∧
      (∀ rc : RevocationConfiguration,
        (expandAcmpcaRevocationConfiguration
          (flattenAcmpcaRevocationConfiguration (some rc))).isSome = true)) :=
  ⟨by decide, by decide, by decide,
   acmpca_transcoder_roundtrip (some sampleSubject) (some sampleConfig)
     (some sampleRevocation) (by decide) (by decide) (by decide)⟩

/-- Dynamic Go interface value as handed around by the schema framework. -/
inductive GoValue where
  | str (s : String)
  | intVal (n : Int)
  | boolVal (b : Bool)
  | list (l : List GoValue)
  | dict (entries : List (String × GoValue))

/-- Go type assertion to map[string]interface: the entries on a map value, and a
runtime panic — modelled as none — on every other dynamic type. -/
def GoValue.asMap : GoValue → Option (List (String × GoValue))
  | .dict entries => some entries
  | _ => none

/-- Go type assertion to string. -/
def GoValue.asString : GoValue → Option String
  | .str s => some s
  | _ => none

/-- Go map indexing m[k]: a nil interface value (none) when the key is absent. -/
def lookupGoKey : List (String × GoValue) → String → Option GoValue
  | [], _ => none
  | (k, v) :: t, key => if k = key then some v else lookupGoKey t key

/-- Dynamic value of one flattened subject map. -/
def subjectMapGoValue (s : SubjectMap) : GoValue :=
  .dict [("common_name", .str s.common_name), ("country", .str s.country),
    ("distinguished_name_qualifier", .str s.distinguished_name_qualifier),
    ("generation_qualifier", .str s.generation_qualifier),
    ("given_name", .str s.given_name), ("initials", .str s.initials),
    ("locality", .str s.locality), ("organization", .str s.organization),
    ("organizational_unit", .str s.organizational_unit),
    ("pseudonym", .str s.pseudonym), ("state", .str s.state),
    ("surname", .str s.surname), ("title", .str s.title)]

/-- Dynamic value of one certificate_authority_configuration map. -/
def caConfigMapGoValue (m : CAConfigMap) : GoValue :=
  .dict [("key_algorithm", .str m.key_algorithm),
    ("signing_algorithm", .str m.signing_algorithm),
    ("subject", .list (m.subject.map subjectMapGoValue))]

/-- Resource data for the certificate-authority resource, holding the attributes
the Create path reads. The validity attributes are Optional in the schema
(source lines 266-282), hence Option here; an absent attribute reads back as its
zero value through Get and fails the GetOk presence test. -/
structure CAResourceData where
  typeAttr : String
  certificate_authority_configuration : List CAConfigMap
  revocation_configuration : List RevocationMap
  validity_length : Option Int
  validity_unit : Option String
  tags : List (String × String)
deriving DecidableEq

/-- Value returned by d.Get("certificate_authority_configuration"): the schema
declares the attribute as TypeList (source lines 45-48), so Get always yields a
[]interface value — the very dynamic type the Create path asserts with
.([]interface) at source line 303. -/
def certificateAuthorityConfigurationAttr (d : CAResourceData) : GoValue :=
  .list (d.certificate_authority_configuration.map caConfigMapGoValue)

/-- resource.UniqueId, modelled as an injective function of the generator
counter; each call consumes one counter value. -/
def uniqueId (n : Nat) : String := "terraform-" ++ toString n

/-- acmpca.IssueCertificateInput as built by the self-sign sequence. -/
structure IssueCertificateInput where
  certificateAuthorityArn : String
  csr : String
  idempotencyToken : String
  signingAlgorithm : String
  templateArn : String
  validityType : String
  validityValue : Int
deriving DecidableEq

/-- Step 2 of acmpcaCertificateAuthoritySelfSignCert (source lines 571-586): the
IssueCertificateInput built for the fetched CSR. The source first evaluates
d.Get("certificate_authority_configuration").(map[string]interface) — a single-
value Go type assertion, modelled by GoValue.asMap, whose failure is a runtime
panic, modelled as none, that aborts the provider before any IssueCertificate
call — and then reads signing_algorithm out of the asserted map while taking the
validity fields and a fresh token directly. -/
def acmpcaSelfSignIssueInput (d : CAResourceData) (arn csr : String) (gen : Nat) :
    Option IssueCertificateInput :=
  match (certificateAuthorityConfigurationAttr d).asMap with
  | none => none
  | some m =>
    match lookupGoKey m "signing_algorithm" with
    | none => none
    | some v =>
      match v.asString with
      | none => none
      | some alg => some
          { certificateAuthorityArn := arn,
            csr := csr,
            idempotencyToken := uniqueId gen,
            signingAlgorithm := alg,
            templateArn := "arn:aws:acm-pca:::template/RootCACertificate/V1",
            validityType := stringValue d.validity_unit,
            validityValue := int64Value d.validity_length }

/-- Claim C1 (code bug): for every resource configuration the self-sign sequence
never constructs its IssueCertificate request. Get on the TypeList attribute
certificate_authority_configuration yields a list value — the Create path
asserts the same expression as a list at source line 303 — and the map type
assertion at source line 573 therefore panics, so step 2 cannot issue the
certificate with the fixed root template and cannot abort Create with an
ordinary error either. -/
theorem acmpcaSelfSignIssue_never_constructed
    (d : CAResourceData) (arn csr : String) (gen : Nat) :
    acmpcaSelfSignIssueInput d arn csr gen = none := rfl

/-- Go d.GetOk on an int attribute: set only when present and nonzero. -/
def getOkInt : Option Int → Bool
  | none => false
  | some n => decide (n ≠ 0)

/-- Go d.GetOk on a string attribute: set only when present and nonempty. -/
def getOkStr : Option String → Bool
  | none => false
  | some s => s != ""

/-- Validation prologue of resourceAwsAcmpcaCertificateAuthorityCreate (source
lines 288-297): for a ROOT authority both validity attributes must pass GetOk,
and the first failing one aborts with its message. -/
def createValidityCheck (d : CAResourceData) : Option String :=
  if d.typeAttr = "ROOT" then
    if getOkInt d.validity_length = false then
      some "validity_length must be set when creating a Certificate Authority with a self-signed root certificate"
    else if getOkStr d.validity_unit = false then
      some "validity_unit must be set when creating a Certificate Authority with a self-signed root certificate"
    else none
  else none

/-- The retryable-failure test inside the create retry closure (source lines
319-323). -/
def retryableCreateError (e : AwsError) : Bool :=
  isAWSErr e "ValidationException" "Check your S3 bucket permissions and try again"

/-- acmpca.CreateCertificateAuthorityInput as built at source lines 302-311. -/
structure CreateCertificateAuthorityInput where
  certificateAuthorityConfiguration : Option CertificateAuthorityConfiguration
  certificateAuthorityType : String
  idempotencyToken : String
  revocationConfiguration : Option RevocationConfiguration
  tags : List (String × String)
deriving DecidableEq

/-- Outcome of the bounded retry primitive around the create call. -/
inductive RetryOutcome where
  | ok (arn : String)
  | fatal (e : AwsError)
  | timeout (e : AwsError)
deriving DecidableEq

/-- resource.Retry around the create closure (source lines 315-326). The backend
maps the attempt index to that attempt's result; fuel bounds how many further
attempts the one-minute wall clock still allows after the current one; the
request recorded for every attempt is the one input value the closure closed
over. An exhausted budget while the error stays retryable is the timeout case. -/
def retryCreateLoop (backend : Nat → CallResult String)
    (input : CreateCertificateAuthorityInput) :
    Nat → Nat → List CreateCertificateAuthorityInput × RetryOutcome
  | 0, i =>
    match backend i with
    | .ok arn => ([input], .ok arn)
    | .failure e =>
      if retryableCreateError e then ([input], .timeout e)
      else ([input], .fatal e)
  | f + 1, i =>
    match backend i with
    | .ok arn => ([input], .ok arn)
    | .failure e =>
      if retryableCreateError e then
        (input :: (retryCreateLoop backend input f (i + 1)).1,
          (retryCreateLoop backend input f (i + 1)).2)
      else ([input], .fatal e)

/-- Local and remote failure modes of Create: the validation errors of the
prologue and wrapped provider errors. -/
inductive CreateError where
  | validation (msg : String)
  | provider (e : AwsError)
deriving DecidableEq

/-- True exactly on a validation failure. -/
def isValidationFailure : Except CreateError String → Bool
  | .error (.validation _) => true
  | _ => false

/-- Dispatch on the retry outcome (source lines 327-332): a timeout of the retry
budget triggers exactly one extra attempt with the same input; other outcomes
pass through, provider failures wrapped. -/
def createAttemptsAux (backend : Nat → CallResult String)
    (input : CreateCertificateAuthorityInput)
    (tr : List CreateCertificateAuthorityInput) (out : RetryOutcome) :
    List CreateCertificateAuthorityInput × Except CreateError String :=
  match out with
  | .ok arn => (tr, .ok arn)
  | .fatal e => (tr, .error (.provider e))
  | .timeout _ =>
    match backend tr.length with
    | .ok arn => (tr ++ [input], .ok arn)
    | .failure e => (tr ++ [input], .error (.provider e))

/-- The create attempts after validation passed (source lines 314-332): the
bounded retry, and — exactly when the retry budget timed out — one extra attempt
with the same input. Returns the trace of requests issued and the result. -/
def createAttempts (backend : Nat → CallResult String)
    (input : CreateCertificateAuthorityInput) (fuel : Nat) :
    List CreateCertificateAuthorityInput × Except CreateError String :=
  createAttemptsAux backend input (retryCreateLoop backend input fuel 0).1
    (retryCreateLoop backend input fuel 0).2

/-- Result of the create-call phase: the requests issued, the outcome, and the
generator counter afterwards. -/
structure CreatePhase where
  requests : List CreateCertificateAuthorityInput
  result : Except CreateError String
  genAfter : Nat

/-- The CreateCertificateAuthorityInput built at source lines 302-311 from the
resource data and the freshly generated token. -/
def buildCreateInput (d : CAResourceData) (gen : Nat) :
    CreateCertificateAuthorityInput :=
  { certificateAuthorityConfiguration :=
      expandAcmpcaCertificateAuthorityConfiguration
        d.certificate_authority_configuration,
    certificateAuthorityType := d.typeAttr,
    idempotencyToken := uniqueId gen,
    revocationConfiguration :=
      expandAcmpcaRevocationConfiguration d.revocation_configuration,
    tags := d.tags }

/-- resourceAwsAcmpcaCertificateAuthorityCreate through the remote create call
(source lines 287-332): validation prologue, one idempotency-token generation,
input construction, and the retried create call. -/
def createCallPhase (d : CAResourceData) (backend : Nat → CallResult String)
    (fuel gen : Nat) : CreatePhase :=
  match createValidityCheck d with
  | some msg => ⟨[], .error (.validation msg), gen⟩
  | none =>
    ⟨(createAttempts backend (buildCreateInput d gen) fuel).1,
     (createAttempts backend (buildCreateInput d gen) fuel).2, gen + 1⟩

theorem retryCreateLoop_requests (backend : Nat → CallResult String)
    (input : CreateCertificateAuthorityInput) :
    ∀ fuel i req, req ∈ (retryCreateLoop backend input fuel i).1 → req = input := by
  intro fuel
  induction fuel with
  | zero =>
    intro i req hreq
    unfold retryCreateLoop at hreq
    cases hb : backend i with
    | ok arn => simp [hb] at hreq; exact hreq
    | failure e =>
      by_cases hr : retryableCreateError e = true <;>
        simp [hb, hr] at hreq <;> exact hreq
  | succ f ih =>
    intro i req hreq
    unfold retryCreateLoop at hreq
    cases hb : backend i with
    | ok arn => simp [hb] at hreq; exact hreq
    | failure e =>
      by_cases hr : retryableCreateError e = true
      · simp [hb, hr] at hreq
        rcases hreq with hreq | hreq
        · exact hreq
        · exact ih (i + 1) req hreq
      · simp [hb, hr] at hreq
        exact hreq

theorem retryCreateLoop_ne_nil (backend : Nat → CallResult String)
    (input : CreateCertificateAuthorityInput) (fuel i : Nat) :
    (retryCreateLoop backend input fuel i).1 ≠ [] := by
  cases fuel with
  | zero =>
    unfold retryCreateLoop
    cases hb : backend i with
    | ok arn => simp
    | failure e => by_cases hr : retryableCreateError e = true <;> simp [hr]
  | succ f =>
    unfold retryCreateLoop
    cases hb : backend i with
    | ok arn => simp
    | failure e => by_cases hr : retryableCreateError e = true <;> simp [hr]

theorem createAttemptsAux_requests (backend : Nat → CallResult String)
    (input : CreateCertificateAuthorityInput)
    (tr : List CreateCertificateAuthorityInput) (out : RetryOutcome)
    (htr : ∀ req ∈ tr, req = input) (hne : tr ≠ []) :
    (∀ req ∈ (createAttemptsAux backend input tr out).1, req = input) ∧
      (createAttemptsAux backend input tr out).1 ≠ [] ∧
      isValidationFailure (createAttemptsAux backend input tr out).2 = false := by
  cases out with
  | ok arn => exact ⟨htr, hne, rfl⟩
  | fatal e => exact ⟨htr, hne, rfl⟩
  | timeout e =>
    unfold createAttemptsAux
    cases hb : backend tr.length with
    | ok arn =>
      refine ⟨?_, by simp, rfl⟩
      intro req hreq
      rcases List.mem_append.mp hreq with h | h
      · exact htr req h
      · simpa using h
    | failure e2 =>
      refine ⟨?_, by simp, rfl⟩
      intro req hreq
      rcases List.mem_append.mp hreq with h | h
      · exact htr req h
      · simpa using h

theorem createAttempts_requests (backend : Nat → CallResult String)
    (input : CreateCertificateAuthorityInput) (fuel : Nat) :
    (∀ req ∈ (createAttempts backend input fuel).1, req = input) ∧
      (createAttempts backend input fuel).1 ≠ [] ∧
      isValidationFailure (createAttempts backend input fuel).2 = false :=
  createAttemptsAux_requests backend input _ _
    (retryCreateLoop_requests backend input fuel 0)
    (retryCreateLoop_ne_nil backend input fuel 0)

theorem bool_ne_false {b : Bool} (h : ¬b = false) : b = true := by
  cases b
  · exact absurd rfl h
  · rfl

theorem createCallPhase_pass_requests (d : CAResourceData)
    (backend : Nat → CallResult String) (fuel gen : Nat)
    (h : createValidityCheck d = none) :
    (createCallPhase d backend fuel gen).requests =
      (createAttempts backend (buildCreateInput d gen) fuel).1 := by
  simp only [createCallPhase, h]

theorem createCallPhase_pass_result (d : CAResourceData)
    (backend : Nat → CallResult String) (fuel gen : Nat)
    (h : createValidityCheck d = none) :
    (createCallPhase d backend fuel gen).result =
      (createAttempts backend (buildCreateInput d gen) fuel).2 := by
  simp only [createCallPhase, h]

theorem createCallPhase_pass_gen (d : CAResourceData)
    (backend : Nat → CallResult String) (fuel gen : Nat)
    (h : createValidityCheck d = none) :
    (createCallPhase d backend fuel gen).genAfter = gen + 1 := by
  simp only [createCallPhase, h]

theorem createCallPhase_fail (d : CAResourceData)
    (backend : Nat → CallResult String) (fuel gen : Nat) (msg : String)
    (h : createValidityCheck d = some msg) :
    createCallPhase d backend fuel gen = ⟨[], .error (.validation msg), gen⟩ := by
  simp only [createCallPhase, h]

/-- Sample subject block map (only common_name set). -/
def sampleSubjectMap : SubjectMap :=
  { common_name := "example.com", country := "",
    distinguished_name_qualifier := "", generation_qualifier := "",
    given_name := "", initials := "", locality := "", organization := "",
    organizational_unit := "", pseudonym := "", state := "", surname := "",
    title := "" }

/-- Sample certificate_authority_configuration block map. -/
def sampleConfigMap : CAConfigMap :=
  { key_algorithm := "RSA_4096", signing_algorithm := "SHA512WITHRSA",
    subject := [sampleSubjectMap] }

/-- Subordinate-authority resource data without validity attributes. -/
def subordinateData : CAResourceData :=
  { typeAttr := "SUBORDINATE",
    certificate_authority_configuration := [sampleConfigMap],
    revocation_configuration := [],
    validity_length := none, validity_unit := none, tags := [] }

/-- Root-authority resource data whose validity attributes are both present but
whose length is the int zero value. -/
def zeroValidityRootData : CAResourceData :=
  { typeAttr := "ROOT",
    certificate_authority_configuration := [sampleConfigMap],
    revocation_configuration := [],
    validity_length := some 0, validity_unit := some "YEARS", tags := [] }

/-- Backend whose create call always succeeds. -/
def okBackend : Nat → CallResult String :=
  fun _ => .ok "arn:aws:acm-pca:us-east-1:123456789012:certificate-authority/test"

/-- The transient S3 ACL propagation error (source line 319 comment). -/
def s3PropagationError : AwsError :=
  { code := "ValidationException",
    message := "The ACM Private CA service account requires getBucketAcl permissions for your S3 bucket. Check your S3 bucket permissions and try again." }

/-- A non-retryable provider error. -/
def accessDeniedError : AwsError :=
  { code := "AccessDeniedException", message := "not authorized" }

/-- Backend failing once with the transient error and then succeeding. -/
def retryThenOkBackend : Nat → CallResult String :=
  fun i => if i = 0 then .failure s3PropagationError
    else .ok "arn:aws:acm-pca:us-east-1:123456789012:certificate-authority/test"

/-- Claim C2 counterexample: with authorityType ROOT and both validity attributes
present — validity_length set to 0 and validity_unit set to "YEARS" — Create
still fails with a validation error before issuing any remote call, because the
GetOk presence test cannot distinguish a present zero value from an absent
attribute; this refutes the claimed "fails if and only if absent". -/
theorem create_validation_zero_length_cex :
    zeroValidityRootData.typeAttr = "ROOT" ∧
    zeroValidityRootData.validity_length ≠ none ∧
    zeroValidityRootData.validity_unit ≠ none ∧
    isValidationFailure (createCallPhase zeroValidityRootData okBackend 3 0).result = true ∧
    (createCallPhase zeroValidityRootData okBackend 3 0).requests = [] :=
  ⟨rfl, by decide, by decide, by decide, by decide⟩

/-- Claim C2 (amended): for every SUBORDINATE configuration Create never fails
validation, whatever the validity attributes hold; for every ROOT configuration
Create fails with a validation error before issuing any remote call exactly when
validity_length is absent or zero, or validity_unit is absent or empty — the
GetOk presence test used by the prologue treats a zero value as unset. -/
theorem create_validity_precondition (d : CAResourceData)
    (backend : Nat → CallResult String) (fuel gen : Nat) :
    (d.typeAttr = "SUBORDINATE" →
      isValidationFailure (createCallPhase d backend fuel gen).result = false) ∧
    (d.typeAttr = "ROOT" →
      ((isValidationFailure (createCallPhase d backend fuel gen).result = true ∧
          (createCallPhase d backend fuel gen).requests = []) ↔
        (getOkInt d.validity_length = false ∨
          getOkStr d.validity_unit = false))) := by
  constructor
  · intro hsub
    have hv : createValidityCheck d = none := by
      simp [createValidityCheck, hsub]
    rw [createCallPhase_pass_result d backend fuel gen hv]
    exact (createAttempts_requests backend (buildCreateInput d gen) fuel).2.2
  · intro hroot
    constructor
    · rintro ⟨hval, _⟩
      by_contra hcon
      push_neg at hcon
      obtain ⟨hL, hU⟩ := hcon
      have hL2 := bool_ne_false hL
      have hU2 := bool_ne_false hU
      have hv : createValidityCheck d = none := by
        simp [createValidityCheck, hroot, hL2, hU2]
      rw [createCallPhase_pass_result d backend fuel gen hv] at hval
      have hfalse :=
        (createAttempts_requests backend (buildCreateInput d gen) fuel).2.2
      rw [hfalse] at hval
      exact Bool.noConfusion hval
    · intro hcase
      by_cases hL : getOkInt d.validity_length = false
      · have hv : createValidityCheck d =
            some "validity_length must be set when creating a Certificate Authority with a self-signed root certificate" := by
          simp [createValidityCheck, hroot, hL]
        rw [createCallPhase_fail d backend fuel gen _ hv]
        exact ⟨rfl, rfl⟩
      · have hL2 := bool_ne_false hL
        have hU : getOkStr d.validity_unit = false := by
          rcases hcase with h | h
          · exact absurd h hL
          · exact h
        have hv : createValidityCheck d =
            some "validity_unit must be set when creating a Certificate Authority with a self-signed root certificate" := by
          simp [createValidityCheck, hroot, hL2, hU]
        rw [createCallPhase_fail d backend fuel gen _ hv]
        exact ⟨rfl, rfl⟩

/-- Claim C2 witness: the amended theorem applied to the concrete subordinate
configuration. -/
theorem create_validity_precondition_witness :
    subordinateData.typeAttr = "SUBORDINATE" ∧
    isValidationFailure (createCallPhase subordinateData okBackend 2 0).result = false :=
  ⟨rfl, (create_validity_precondition subordinateData okBackend 2 0).1 rfl⟩

/-- Claim C4: within one Create call the idempotency token is generated exactly
once — the generator counter advances by exactly one — and every create request
in the trace (the initial call, each bounded-backoff retry, and the extra
attempt after a retry timeout) carries that one token. -/
theorem create_idempotency_token_single (d : CAResourceData)
    (backend : Nat → CallResult String) (fuel gen : Nat)
    (h : createValidityCheck d = none) :
    (createCallPhase d backend fuel gen).requests ≠ [] ∧
    (∀ req ∈ (createCallPhase d backend fuel gen).requests,
      req.idempotencyToken = uniqueId gen) ∧
    (createCallPhase d backend fuel gen).genAfter = gen + 1 := by
  have hreqs := createAttempts_requests backend (buildCreateInput d gen) fuel
  refine ⟨?_, ?_, createCallPhase_pass_gen d backend fuel gen h⟩
  · rw [createCallPhase_pass_requests d backend fuel gen h]
    exact hreqs.2.1
  · rw [createCallPhase_pass_requests d backend fuel gen h]
    intro req hmem
    rw [hreqs.1 req hmem]
    rfl

/-- Claim C4 witness: the token theorem at a concrete subordinate Create whose
first attempt fails with the transient error and is retried. -/
theorem create_idempotency_token_single_witness :
    createValidityCheck subordinateData = none ∧
    ((createCallPhase subordinateData retryThenOkBackend 2 0).requests ≠ [] ∧
      (∀ req ∈ (createCallPhase subordinateData retryThenOkBackend 2 0).requests,
        req.idempotencyToken = uniqueId 0) ∧
      (createCallPhase subordinateData retryThenOkBackend 2 0).genAfter = 0 + 1) :=
  ⟨rfl, create_idempotency_token_single subordinateData retryThenOkBackend 2 0 rfl⟩


theorem retryCreateLoop_fatal (backend : Nat → CallResult String)
    (input : CreateCertificateAuthorityInput) (fuel i : Nat) (e : AwsError)
    (hb : backend i = .failure e) (hr : retryableCreateError e = false) :
    retryCreateLoop backend input fuel i = ([input], .fatal e) := by
  cases fuel <;> unfold retryCreateLoop <;> rw [hb] <;> simp [hr]

theorem retryCreateLoop_retry_step (backend : Nat → CallResult String)
    (input : CreateCertificateAuthorityInput) (f i : Nat) (e : AwsError)
    (hb : backend i = .failure e) (hr : retryableCreateError e = true) :
    retryCreateLoop backend input (f + 1) i =
      (input :: (retryCreateLoop backend input f (i + 1)).1,
        (retryCreateLoop backend input f (i + 1)).2) := by
  rw [retryCreateLoop.eq_def]
  simp [hb, hr]

theorem createAttemptsAux_len (backend : Nat → CallResult String)
    (input : CreateCertificateAuthorityInput)
    (tr : List CreateCertificateAuthorityInput) (out : RetryOutcome) :
    tr.length ≤ (createAttemptsAux backend input tr out).1.length := by
  cases out with
  | ok arn => simp [createAttemptsAux]
  | fatal e => simp [createAttemptsAux]
  | timeout e =>
    unfold createAttemptsAux
    cases hb : backend tr.length <;> simp

/-- Claim C5: the create retry policy — a failure of the remote create call is
retryable exactly when it is a ValidationException whose message contains
"Check your S3 bucket permissions and try again"; a non-retryable first failure
yields exactly one attempt and surfaces that error, while a retryable first
failure with budget remaining yields a second attempt with the same request. -/
theorem create_retry_policy (d : CAResourceData)
    (backend : Nat → CallResult String) (fuel gen : Nat) (e : AwsError)
    (h : createValidityCheck d = none) :
    (retryableCreateError e = true ↔
      (e.code = "ValidationException" ∧
        strContains e.message "Check your S3 bucket permissions and try again" = true)) ∧
    (backend 0 = .failure e → retryableCreateError e = false →
      (createCallPhase d backend fuel gen).requests.length = 1 ∧
      (createCallPhase d backend fuel gen).result = .error (.provider e)) ∧
    (backend 0 = .failure e → retryableCreateError e = true → 1 ≤ fuel →
      2 ≤ (createCallPhase d backend fuel gen).requests.length) := by
  refine ⟨?_, ?_, ?_⟩
  · simp [retryableCreateError, isAWSErr, Bool.and_eq_true, beq_iff_eq]
  · intro hb hr
    have hloop := retryCreateLoop_fatal backend (buildCreateInput d gen) fuel 0 e hb hr
    have hatt : createAttempts backend (buildCreateInput d gen) fuel =
        ([buildCreateInput d gen], .error (.provider e)) := by
      unfold createAttempts
      rw [hloop]
      rfl
    rw [createCallPhase_pass_requests d backend fuel gen h,
      createCallPhase_pass_result d backend fuel gen h, hatt]
    exact ⟨rfl, rfl⟩
  · intro hb hr hf
    obtain ⟨f, rfl⟩ : ∃ f, fuel = f + 1 := ⟨fuel - 1, by omega⟩
    rw [createCallPhase_pass_requests d backend (f + 1) gen h]
    have hstep := retryCreateLoop_retry_step backend (buildCreateInput d gen) f 0 e hb hr
    have h2 : 2 ≤ (retryCreateLoop backend (buildCreateInput d gen) (f + 1) 0).1.length := by
      rw [hstep]
      have hpos : 0 < (retryCreateLoop backend (buildCreateInput d gen) f (0 + 1)).1.length :=
        List.length_pos.mpr (retryCreateLoop_ne_nil backend (buildCreateInput d gen) f (0 + 1))
      simp only [List.length_cons]
      omega
    calc 2 ≤ (retryCreateLoop backend (buildCreateInput d gen) (f + 1) 0).1.length := h2
      _ ≤ (createAttempts backend (buildCreateInput d gen) (f + 1)).1.length :=
        createAttemptsAux_len backend (buildCreateInput d gen) _ _

/-- Claim C5 witness: the retry-policy theorem at a concrete subordinate Create,
once against a persistent non-retryable error (one attempt, surfaced) and once
against the persistent transient S3 error (a retry happens). -/
theorem create_retry_policy_witness :
    createValidityCheck subordinateData = none ∧
    retryableCreateError s3PropagationError = true ∧
    retryableCreateError accessDeniedError = false ∧
    ((createCallPhase subordinateData (fun _ => .failure accessDeniedError) 3 0).requests.length = 1 ∧
      (createCallPhase subordinateData (fun _ => .failure accessDeniedError) 3 0).result =
        .error (.provider accessDeniedError)) ∧
    2 ≤ (createCallPhase subordinateData (fun _ => .failure s3PropagationError) 3 0).requests.length := by
  refine ⟨rfl, by decide, by decide, ?_, ?_⟩
  · exact (create_retry_policy subordinateData (fun _ => .failure accessDeniedError)
      3 0 accessDeniedError rfl).2.1 rfl (by decide)
  · exact (create_retry_policy subordinateData (fun _ => .failure s3PropagationError)
      3 0 s3PropagationError rfl).2.2 rfl (by decide) (by decide)

theorem strContains_nil (hay : String) : strContains hay "" = true := by
  unfold strContains
  cases hay.data with
  | nil => rfl
  | cons h t => simp [charsContain, List.isPrefixOf]

/-- acmpca.CertificateAuthority, restricted to the fields the resource reads.
The two timestamps are kept as their already-formatted strings, time formatting
being outside the modelled core. -/
structure CertificateAuthority where
  arn : Option String
  certificateAuthorityConfiguration : Option CertificateAuthorityConfiguration
  notAfter : Option String
  notBefore : Option String
  revocationConfiguration : Option RevocationConfiguration
  serial : Option String
  status : Option String
  typeField : Option String
deriving DecidableEq

/-- acmpca.DescribeCertificateAuthorityOutput: the authority pointer may be nil. -/
structure DescribeCertificateAuthorityOutput where
  certificateAuthority : Option CertificateAuthority
deriving DecidableEq

/-- acmpcaCertificateAuthorityRefreshFunc (source lines 535-556) applied to one
describe response; the ok-none case models a nil output pointer. Returns the Go
triple (entity, status, error). -/
def acmpcaCertificateAuthorityRefreshFunc
    (resp : CallResult (Option DescribeCertificateAuthorityOutput)) :
    Option CertificateAuthority × String × Option AwsError :=
  match resp with
  | .failure e =>
    if isAWSErr e "ResourceNotFoundException" "" then (none, "", none)
    else (none, "", some e)
  | .ok none => (none, "", none)
  | .ok (some output) =>
    match output.certificateAuthority with
    | none => (none, "", none)
    | some ca => (some ca, stringValue ca.status, none)

/-- Claim C6: the activation poll's fetch function distinguishes not-found from a
real error — a ResourceNotFoundException, a nil describe output, or a response
without an authority payload all yield the non-error empty triple (nil entity,
empty status, nil error) that short-circuits the poll as absence, while any
other describe failure is returned as the error component. -/
theorem refresh_distinguishes_not_found
    (e : AwsError) (output : DescribeCertificateAuthorityOutput)
    (ca : CertificateAuthority) :
    (e.code = "ResourceNotFoundException" →
      acmpcaCertificateAuthorityRefreshFunc (.failure e) = (none, "", none)) ∧
    (e.code ≠ "ResourceNotFoundException" →
      acmpcaCertificateAuthorityRefreshFunc (.failure e) = (none, "", some e)) ∧
    (acmpcaCertificateAuthorityRefreshFunc (.ok none) = (none, "", none)) ∧
    (output.certificateAuthority = none →
      acmpcaCertificateAuthorityRefreshFunc (.ok (some output)) = (none, "", none)) ∧
    (output.certificateAuthority = some ca →
      acmpcaCertificateAuthorityRefreshFunc (.ok (some output)) =
        (some ca, stringValue ca.status, none)) := by
  refine ⟨?_, ?_, rfl, ?_, ?_⟩
  · intro hcode
    simp [acmpcaCertificateAuthorityRefreshFunc, isAWSErr, hcode, strContains_nil]
  · intro hcode
    simp [acmpcaCertificateAuthorityRefreshFunc, isAWSErr, Bool.and_eq_true,
      beq_iff_eq, hcode]
  · intro hnone
    simp [acmpcaCertificateAuthorityRefreshFunc, hnone]
  · intro hsome
    simp [acmpcaCertificateAuthorityRefreshFunc, hsome]

/-- The ResourceNotFoundException error used by witnesses. -/
def notFoundError : AwsError :=
  { code := "ResourceNotFoundException", message := "resource not found" }

/-- Sample remote certificate authority used by witnesses. -/
def sampleCA : CertificateAuthority :=
  { arn := some "arn:aws:acm-pca:us-east-1:123456789012:certificate-authority/test",
    certificateAuthorityConfiguration := some sampleConfig,
    notAfter := none, notBefore := none,
    revocationConfiguration := none, serial := none,
    status := some "ACTIVE", typeField := some "ROOT" }

/-- Claim C6 witness: the refresh theorem at the concrete not-found error and at
a concrete unrelated error. -/
theorem refresh_distinguishes_not_found_witness :
    notFoundError.code = "ResourceNotFoundException" ∧
    acmpcaCertificateAuthorityRefreshFunc (.failure notFoundError) = (none, "", none) ∧
    accessDeniedError.code ≠ "ResourceNotFoundException" ∧
    acmpcaCertificateAuthorityRefreshFunc (.failure accessDeniedError) =
      (none, "", some accessDeniedError) :=
  ⟨rfl,
   (refresh_distinguishes_not_found notFoundError ⟨none⟩ sampleCA).1 rfl,
   by decide,
   (refresh_distinguishes_not_found accessDeniedError ⟨none⟩ sampleCA).2.1 (by decide)⟩

/-- Terraform state of the certificate-authority resource: the resource id plus
the declared attributes touched by Read and Delete. -/
structure CAState where
  id : String
  arn : String
  certificate_authority_configuration : List CAConfigMap
  certificate : String
  certificate_chain : String
  certificate_signing_request : String
  enabled : Bool
  not_after : String
  not_before : String
  revocation_configuration : List RevocationMap
  serial : String
  status : String
  typeAttr : String
  permanent_deletion_time_in_days : Option Int
  tags : List (String × String)
deriving DecidableEq

/-- acmpca.GetCertificateAuthorityCertificateOutput. -/
structure GetCertificateAuthorityCertificateOutput where
  certificate : Option String
  certificateChain : Option String
deriving DecidableEq

/-- acmpca.GetCertificateAuthorityCsrOutput. -/
structure GetCertificateAuthorityCsrOutput where
  csr : Option String
deriving DecidableEq

/-- The four remote responses consumed by one Read, in call order. -/
structure ReadBackend where
  describeResult : CallResult DescribeCertificateAuthorityOutput
  getCertificateResult : CallResult GetCertificateAuthorityCertificateOutput
  getCsrResult : CallResult GetCertificateAuthorityCsrOutput
  listTagsResult : CallResult (List (String × String))

/-- Tag phase of Read (source lines 459-469). -/
def readTagsPhase (d : CAState) (b : ReadBackend) : CAState × Option AwsError :=
  match b.listTagsResult with
  | .failure e => (d, some e)
  | .ok tagList => ({ d with tags := tagList }, none)

/-- CSR phase of Read (source lines 436-457): not-found clears the id and
succeeds; InvalidStateException is tolerated with an empty CSR; any other error
is fatal. -/
def readCsrPhase (d : CAState) (b : ReadBackend) : CAState × Option AwsError :=
  match b.getCsrResult with
  | .failure e =>
    if isAWSErr e "ResourceNotFoundException" "" then ({ d with id := "" }, none)
    else if !(isAWSErr e "InvalidStateException" "") then (d, some e)
    else readTagsPhase { d with certificate_signing_request := "" } b
  | .ok csrOut =>
    readTagsPhase { d with certificate_signing_request := stringValue csrOut.csr } b

/-- resourceAwsAcmpcaCertificateAuthorityRead (source lines 365-470): describe
and flatten into state, fetch certificate and CSR tolerating
InvalidStateException, then list tags; a ResourceNotFoundException at the
describe, certificate or CSR step clears the id and returns success. -/
def resourceAwsAcmpcaCertificateAuthorityRead (d : CAState) (b : ReadBackend) :
    CAState × Option AwsError :=
  match b.describeResult with
  | .failure e =>
    if isAWSErr e "ResourceNotFoundException" "" then ({ d with id := "" }, none)
    else (d, some e)
  | .ok output =>
    match output.certificateAuthority with
    | none => ({ d with id := "" }, none)
    | some ca =>
      let d1 := { d with
        arn := stringValue ca.arn,
        certificate_authority_configuration :=
          flattenAcmpcaCertificateAuthorityConfiguration
            ca.certificateAuthorityConfiguration,
        enabled := stringValue ca.status != "DISABLED",
        not_after := stringValue ca.notAfter,
        not_before := stringValue ca.notBefore,
        revocation_configuration :=
          flattenAcmpcaRevocationConfiguration ca.revocationConfiguration,
        serial := stringValue ca.serial,
        status := stringValue ca.status,
        typeAttr := stringValue ca.typeField }
      match b.getCertificateResult with
      | .failure e =>
        if isAWSErr e "ResourceNotFoundException" "" then ({ d1 with id := "" }, none)
        else if !(isAWSErr e "InvalidStateException" "") then (d1, some e)
        else readCsrPhase { d1 with certificate := "", certificate_chain := "" } b
      | .ok certOut =>
        readCsrPhase { d1 with
          certificate := stringValue certOut.certificate,
          certificate_chain := stringValue certOut.certificateChain } b

/-- acmpca.DeleteCertificateAuthorityInput. -/
structure DeleteCertificateAuthorityInput where
  certificateAuthorityArn : String
  permanentDeletionTimeInDays : Option Int
deriving DecidableEq

/-- resourceAwsAcmpcaCertificateAuthorityDelete (source lines 512-533): schedule
deletion carrying the GetOk-guarded retention days; a ResourceNotFoundException
response is success (already deleted). -/
def resourceAwsAcmpcaCertificateAuthorityDelete (d : CAState)
    (resp : Option AwsError) : DeleteCertificateAuthorityInput × Option AwsError :=
  let input : DeleteCertificateAuthorityInput :=
    { certificateAuthorityArn := d.id,
      permanentDeletionTimeInDays :=
        if getOkInt d.permanent_deletion_time_in_days then
          some (int64Value d.permanent_deletion_time_in_days)
        else none }
  match resp with
  | none => (input, none)
  | some e =>
    if isAWSErr e "ResourceNotFoundException" "" then (input, none)
    else (input, some e)

theorem isAWSErr_notFound {e : AwsError} (h : e.code = "ResourceNotFoundException") :
    isAWSErr e "ResourceNotFoundException" "" = true := by
  simp [isAWSErr, h, strContains_nil]

/-- Claim C7: a not-found from the provider is never propagated as an error —
Read clears the entity and returns success when the not-found arises at the
describe step, at the certificate fetch, or at the CSR fetch, and Delete returns
success treating the authority as already deleted. -/
theorem read_delete_absence (d : CAState) (b : ReadBackend) (e : AwsError)
    (hcode : e.code = "ResourceNotFoundException") :
    (b.describeResult = .failure e →
      resourceAwsAcmpcaCertificateAuthorityRead d b = ({ d with id := "" }, none)) ∧
    (∀ output ca, b.describeResult = .ok output →
      output.certificateAuthority = some ca →
      b.getCertificateResult = .failure e →
      (resourceAwsAcmpcaCertificateAuthorityRead d b).1.id = "" ∧
        (resourceAwsAcmpcaCertificateAuthorityRead d b).2 = none) ∧
    (∀ output ca certOut, b.describeResult = .ok output →
      output.certificateAuthority = some ca →
      b.getCertificateResult = .ok certOut →
      b.getCsrResult = .failure e →
      (resourceAwsAcmpcaCertificateAuthorityRead d b).1.id = "" ∧
        (resourceAwsAcmpcaCertificateAuthorityRead d b).2 = none) ∧
    ((resourceAwsAcmpcaCertificateAuthorityDelete d (some e)).2 = none) := by
  have hnf := isAWSErr_notFound hcode
  refine ⟨?_, ?_, ?_, ?_⟩
  · intro hdesc
    simp [resourceAwsAcmpcaCertificateAuthorityRead, hdesc, hnf]
  · intro output ca hdesc hca hcert
    simp [resourceAwsAcmpcaCertificateAuthorityRead, hdesc, hca, hcert, hnf]
  · intro output ca certOut hdesc hca hcert hcsr
    simp [resourceAwsAcmpcaCertificateAuthorityRead, hdesc, hca, hcert,
      readCsrPhase, hcsr, hnf]
  · simp [resourceAwsAcmpcaCertificateAuthorityDelete, hnf]

/-- Initial resource state used by Read and Delete witnesses. -/
def emptyCAState : CAState :=
  { id := "arn:aws:acm-pca:us-east-1:123456789012:certificate-authority/test",
    arn := "", certificate_authority_configuration := [], certificate := "",
    certificate_chain := "", certificate_signing_request := "", enabled := true,
    not_after := "", not_before := "", revocation_configuration := [],
    serial := "", status := "", typeAttr := "SUBORDINATE",
    permanent_deletion_time_in_days := some 30, tags := [] }

/-- Backend whose describe call reports the authority as nonexistent. -/
def notFoundReadBackend : ReadBackend :=
  { describeResult := .failure notFoundError,
    getCertificateResult := .failure notFoundError,
    getCsrResult := .failure notFoundError,
    listTagsResult := .ok [] }

/-- Claim C7 witness: the absence theorem at a concrete nonexistent id. -/
theorem read_delete_absence_witness :
    notFoundError.code = "ResourceNotFoundException" ∧
    resourceAwsAcmpcaCertificateAuthorityRead emptyCAState notFoundReadBackend =
      ({ emptyCAState with id := "" }, none) ∧
    (resourceAwsAcmpcaCertificateAuthorityDelete emptyCAState (some notFoundError)).2 = none :=
  ⟨rfl,
   (read_delete_absence emptyCAState notFoundReadBackend notFoundError rfl).1 rfl,
   (read_delete_absence emptyCAState notFoundReadBackend notFoundError rfl).2.2.2⟩

/-- acmpca.UpdateCertificateAuthorityInput. -/
structure UpdateCertificateAuthorityInput where
  certificateAuthorityArn : String
  revocationConfiguration : Option RevocationConfiguration
  status : Option String
deriving DecidableEq

/-- Inputs of one Update call: which of the three mutable attributes HasChange
reports, and the new attribute values. -/
structure UpdateData where
  id : String
  hasChangeEnabled : Bool
  hasChangeRevocation : Bool
  hasChangeTags : Bool
  enabled : Bool
  revocation_configuration : List RevocationMap
  tagsOld : List (String × String)
  tagsNew : List (String × String)
deriving DecidableEq

/-- One remote side-effecting call issued by Update. -/
inductive UpdateCall where
  | updateCertificateAuthority (input : UpdateCertificateAuthorityInput)
  | updateTags (id : String) (old updated : List (String × String))
deriving DecidableEq

/-- The combined update input built at source lines 476-491: a status exactly
when enabled changed — ACTIVE, overwritten to DISABLED when the new enabled is
false — and a revocation configuration exactly when it changed. -/
def buildUpdateInput (d : UpdateData) : UpdateCertificateAuthorityInput :=
  { certificateAuthorityArn := d.id,
    revocationConfiguration :=
      if d.hasChangeRevocation then
        expandAcmpcaRevocationConfiguration d.revocation_configuration
      else none,
    status :=
      if d.hasChangeEnabled then
        some (if d.enabled then "ACTIVE" else "DISABLED")
      else none }

/-- resourceAwsAcmpcaCertificateAuthorityUpdate (source lines 472-509) up to its
final Read: the single combined update call when enabled or
revocation_configuration changed, then the tag-registry call when tags changed
and the update call did not fail; the trace of issued calls is returned with
the result. -/
def resourceAwsAcmpcaCertificateAuthorityUpdate (d : UpdateData)
    (updateResp tagResp : Option AwsError) :
    List UpdateCall × Option AwsError :=
  if d.hasChangeEnabled || d.hasChangeRevocation then
    match updateResp with
    | some e => ([.updateCertificateAuthority (buildUpdateInput d)], some e)
    | none =>
      if d.hasChangeTags then
        ([.updateCertificateAuthority (buildUpdateInput d),
          .updateTags d.id d.tagsOld d.tagsNew], tagResp)
      else ([.updateCertificateAuthority (buildUpdateInput d)], none)
  else
    if d.hasChangeTags then
      ([.updateTags d.id d.tagsOld d.tagsNew], tagResp)
    else ([], none)

/-- Number of combined update calls in a trace. -/
def countUpdateCalls : List UpdateCall → Nat
  | [] => 0
  | .updateCertificateAuthority _ :: t => countUpdateCalls t + 1
  | .updateTags _ _ _ :: t => countUpdateCalls t

/-- Number of tag-registry calls in a trace. -/
def countTagCalls : List UpdateCall → Nat
  | [] => 0
  | .updateTags _ _ _ :: t => countTagCalls t + 1
  | .updateCertificateAuthority _ :: t => countTagCalls t

/-- Claim C8: Update issues at most one combined update call — exactly one when
enabled or revocation_configuration changed, none when neither changed — whose
input carries a status (ACTIVE when enabled, DISABLED otherwise) exactly when
enabled changed and a revocation configuration only when it changed, while tag
changes are reconciled by the separate tag-registry call. -/
theorem update_single_combined_call (d : UpdateData)
    (updateResp tagResp : Option AwsError) :
    (countUpdateCalls (resourceAwsAcmpcaCertificateAuthorityUpdate d updateResp tagResp).1 =
      (if d.hasChangeEnabled || d.hasChangeRevocation then 1 else 0)) ∧
    ((buildUpdateInput d).status =
      (if d.hasChangeEnabled then some (if d.enabled then "ACTIVE" else "DISABLED")
       else none)) ∧
    ((buildUpdateInput d).revocationConfiguration =
      (if d.hasChangeRevocation then
        expandAcmpcaRevocationConfiguration d.revocation_configuration
       else none)) ∧
    (updateResp = none →
      countTagCalls (resourceAwsAcmpcaCertificateAuthorityUpdate d updateResp tagResp).1 =
        (if d.hasChangeTags then 1 else 0)) := by
  refine ⟨?_, rfl, rfl, ?_⟩
  · unfold resourceAwsAcmpcaCertificateAuthorityUpdate
    by_cases hdo : (d.hasChangeEnabled || d.hasChangeRevocation) = true
    · cases updateResp with
      | some e => simp [hdo, countUpdateCalls]
      | none =>
        by_cases ht : d.hasChangeTags = true <;>
          simp [hdo, ht, countUpdateCalls]
    · rw [Bool.not_eq_true] at hdo
      by_cases ht : d.hasChangeTags = true <;>
        simp [hdo, ht, countUpdateCalls]
  · intro hnone
    subst hnone
    unfold resourceAwsAcmpcaCertificateAuthorityUpdate
    by_cases hdo : (d.hasChangeEnabled || d.hasChangeRevocation) = true
    · by_cases ht : d.hasChangeTags = true <;>
        simp [hdo, ht, countTagCalls]
    · rw [Bool.not_eq_true] at hdo
      by_cases ht : d.hasChangeTags = true <;>
        simp [hdo, ht, countTagCalls]

/-- Update data toggling enabled to false on an otherwise untouched ACTIVE
authority (end-to-end scenario C). -/
def disableUpdateData : UpdateData :=
  { id := "arn:aws:acm-pca:us-east-1:123456789012:certificate-authority/test",
    hasChangeEnabled := true, hasChangeRevocation := false,
    hasChangeTags := false, enabled := false, revocation_configuration := [],
    tagsOld := [], tagsNew := [] }

/-- Claim C8 witness: the combined-call theorem at the concrete disable update —
exactly one update call, status DISABLED, no revocation change, no tag call. -/
theorem update_single_combined_call_witness :
    countUpdateCalls
        (resourceAwsAcmpcaCertificateAuthorityUpdate disableUpdateData none none).1 =
      (if disableUpdateData.hasChangeEnabled || disableUpdateData.hasChangeRevocation
       then 1 else 0) ∧
    (buildUpdateInput disableUpdateData).status =
      (if disableUpdateData.hasChangeEnabled
       then some (if disableUpdateData.enabled then "ACTIVE" else "DISABLED")
       else none) ∧
    countTagCalls
        (resourceAwsAcmpcaCertificateAuthorityUpdate disableUpdateData none none).1 =
      (if disableUpdateData.hasChangeTags then 1 else 0) :=
  ⟨(update_single_combined_call disableUpdateData none none).1,
   (update_single_combined_call disableUpdateData none none).2.1,
   (update_single_combined_call disableUpdateData none none).2.2.2 rfl⟩

/-- State of the certificate-attachment resource: its synthesized id and the
three declared attributes (attachment source lines 20-39). -/
structure AttachmentState where
  id : String
  certificate_authority_arn : String
  certificate_body : String
  certificate_chain : String
deriving DecidableEq

/-- The attribute keys the attachment schema declares (attachment source lines
20-39); "certificate" is not among them. -/
def attachmentSchemaKeys : List String :=
  ["certificate_authority_arn", "certificate_body", "certificate_chain"]

/-- Remote ACM PCA state observed through GetCertificateAuthorityCertificate:
the single certificate slot (and chain) of one authority. -/
structure AcmpcaRemote where
  certificate : Option String
  certificateChain : Option String
deriving DecidableEq

/-- A remote ACM PCA call an attachment operation could issue. -/
inductive AttachmentRemoteCall where
  | importCertificate (arn body chain : String)
  | getCertificate (arn : String)
deriving DecidableEq

/-- The GetCertificateAuthorityCertificate response served by the remote state. -/
def remoteGetCertificate (remote : AcmpcaRemote) :
    CallResult GetCertificateAuthorityCertificateOutput :=
  .ok { certificate := remote.certificate,
        certificateChain := remote.certificateChain }

/-- resourceAwsAcmpcaCertificateAuthorityCertificateAttachmentRead (attachment
source lines 66-97): refetches the authority's current certificate; a
ResourceNotFoundException or InvalidStateException clears the id and succeeds;
on success the two Set calls write the undeclared "certificate" key and the
certificate_chain attribute. Returns the new state, the key-value pairs handed
to Set (an undeclared key cannot land in any declared attribute, so only
certificate_chain changes in the state), and the error. -/
def certificateAttachmentRead (d : AttachmentState)
    (resp : CallResult GetCertificateAuthorityCertificateOutput) :
    AttachmentState × List (String × String) × Option AwsError :=
  match resp with
  | .failure e =>
    if isAWSErr e "ResourceNotFoundException" "" then ({ d with id := "" }, [], none)
    else if isAWSErr e "InvalidStateException" "" then ({ d with id := "" }, [], none)
    else (d, [], some e)
  | .ok out =>
    ({ d with certificate_chain := stringValue out.certificateChain },
     [("certificate", stringValue out.certificate),
      ("certificate_chain", stringValue out.certificateChain)],
     none)

/-- resourceAwsAcmpcaCertificateAuthorityCertificateAttachmentDelete (attachment
source lines 99-103): log a warning and return nil; no remote call is made, so
the remote authority state passes through untouched and the resource state is
returned as-is. -/
def certificateAttachmentDelete (remote : AcmpcaRemote) (d : AttachmentState) :
    AcmpcaRemote × AttachmentState × List AttachmentRemoteCall × Option AwsError :=
  (remote, d, [], none)

/-- Claim C9: attachment Delete is a guaranteed no-op — it returns success,
issues no remote call, leaves both the resource state and the remote authority
untouched, and a Read performed after it observes exactly what a Read before it
observes. -/
theorem attachment_delete_noop (remote : AcmpcaRemote) (d : AttachmentState) :
    certificateAttachmentDelete remote d = (remote, d, [], none) ∧
    (certificateAttachmentDelete remote d).2.2.1 = [] ∧
    certificateAttachmentRead (certificateAttachmentDelete remote d).2.1
        (remoteGetCertificate (certificateAttachmentDelete remote d).1) =
      certificateAttachmentRead d (remoteGetCertificate remote) :=
  ⟨rfl, rfl, rfl⟩

/-- Claim C10: after Create recorded certificate_body and
certificate_authority_arn, neither Read nor Delete modifies them — Read changes
at most the certificate_chain attribute and the id, its Set trace touches only
the undeclared "certificate" key and certificate_chain, "certificate" is not a
declared attachment attribute, and Delete modifies nothing. -/
theorem attachment_read_frame (d : AttachmentState)
    (resp : CallResult GetCertificateAuthorityCertificateOutput)
    (remote : AcmpcaRemote) :
    ((certificateAttachmentRead d resp).1.certificate_body = d.certificate_body) ∧
    ((certificateAttachmentRead d resp).1.certificate_authority_arn =
      d.certificate_authority_arn) ∧
    ({ (certificateAttachmentRead d resp).1 with
        certificate_chain := d.certificate_chain, id := d.id } = d) ∧
    (∀ kv ∈ (certificateAttachmentRead d resp).2.1,
      kv.1 = "certificate" ∨ kv.1 = "certificate_chain") ∧
    ("certificate" ∉ attachmentSchemaKeys) ∧
    ((certificateAttachmentDelete remote d).2.1 = d) := by
  refine ⟨?_, ?_, ?_, ?_, by decide, rfl⟩
  · cases resp with
    | failure e =>
      by_cases h1 : isAWSErr e "ResourceNotFoundException" "" = true <;>
        by_cases h2 : isAWSErr e "InvalidStateException" "" = true <;>
        simp [certificateAttachmentRead, h1, h2]
    | ok out => simp [certificateAttachmentRead]
  · cases resp with
    | failure e =>
      by_cases h1 : isAWSErr e "ResourceNotFoundException" "" = true <;>
        by_cases h2 : isAWSErr e "InvalidStateException" "" = true <;>
        simp [certificateAttachmentRead, h1, h2]
    | ok out => simp [certificateAttachmentRead]
  · cases resp with
    | failure e =>
      by_cases h1 : isAWSErr e "ResourceNotFoundException" "" = true <;>
        by_cases h2 : isAWSErr e "InvalidStateException" "" = true <;>
        simp [certificateAttachmentRead, h1, h2]
    | ok out => simp [certificateAttachmentRead]
  · cases resp with
    | failure e =>
      by_cases h1 : isAWSErr e "ResourceNotFoundException" "" = true <;>
        by_cases h2 : isAWSErr e "InvalidStateException" "" = true <;>
        simp [certificateAttachmentRead, h1, h2]
    | ok out =>
      intro kv hkv
      simp [certificateAttachmentRead] at hkv
      rcases hkv with h | h
      · left
        rw [h]
      · right
        rw [h]

/-- Attachment state recorded by a completed Create. -/
def attachedState : AttachmentState :=
  { id := "arn:aws:acm-pca:us-east-1:123456789012:certificate-authority/test-20240101",
    certificate_authority_arn :=
      "arn:aws:acm-pca:us-east-1:123456789012:certificate-authority/test",
    certificate_body := "PEM-BODY", certificate_chain := "PEM-CHAIN" }

/-- Remote authority state holding a later certificate import. -/
def overwrittenRemote : AcmpcaRemote :=
  { certificate := some "NEW-PEM-BODY", certificateChain := some "NEW-PEM-CHAIN" }

/-- Claim C10 witness: the frame theorem at a concrete recorded attachment and a
concrete remote response. -/
theorem attachment_read_frame_witness :
    ((certificateAttachmentRead attachedState (remoteGetCertificate overwrittenRemote)).1.certificate_body =
      attachedState.certificate_body) ∧
    ((certificateAttachmentRead attachedState (remoteGetCertificate overwrittenRemote)).1.certificate_authority_arn =
      attachedState.certificate_authority_arn) ∧
    ({ (certificateAttachmentRead attachedState (remoteGetCertificate overwrittenRemote)).1 with
        certificate_chain := attachedState.certificate_chain, id := attachedState.id } =
      attachedState) ∧
    (∀ kv ∈ (certificateAttachmentRead attachedState (remoteGetCertificate overwrittenRemote)).2.1,
      kv.1 = "certificate" ∨ kv.1 = "certificate_chain") ∧
    ("certificate" ∉ attachmentSchemaKeys) ∧
    ((certificateAttachmentDelete overwrittenRemote attachedState).2.1 = attachedState) :=
  attachment_read_frame attachedState (remoteGetCertificate overwrittenRemote)
    overwrittenRemote
